import Mathlib

/-!
# Verification of the CSV row-count reconciliation service

A shallow embedding in Lean 4 of `src/main.py`: the row counter
`count_csv_rows` (download a CSV file addressed by a `gs://` reference and
count its data rows, header excluded, degrading to `0` on any failure) and
the reconciliation pass `process_documents` (visit every document of a
collection, skip those that already carry a `results` attribute, count the
rows of the two referenced files and write back `{dnc, clean, total}` via a
partial update).

Python strings are modelled as `List Char`; the blob store is a function
from (bucket, blob name) to `Option (List Char)`, where `none` stands for
any exception raised while fetching (not-found, permission, decode error,
timeout) and `some content` for a successful `download_as_text`.  The
document store is a list of documents; `update` failures are modelled by a
per-document flag.  Observable effects (row-counter invocations, update
attempts) are recorded in an event trace.
-/

namespace CfSync

/-- A remote text fetch: `store bucket blobName` is `some content` when
`download_as_text` succeeds and `none` when it raises (absent file,
permission or decode error, ...). -/
def BlobStore : Type := List Char → List Char → Option (List Char)

/-! ## CSV record splitting

`csv.reader` over the downloaded text, as used by `count_csv_rows`: one
record per line, where `\x7b"\x7d` toggles quoting so that a newline inside a
quoted field does not terminate the record.  A trailing newline does not
produce an extra empty record; an empty line produces one empty record. -/

/-- Split character stream `cs` into CSV records.  `inQ` tells whether the
scan is currently inside a quoted field, `acc` holds the characters of the
current record in reverse. -/
def csvRecords : List Char → Bool → List Char → List (List Char)
  | [], _, acc => if acc.isEmpty then [] else [acc.reverse]
  | c :: rest, inQ, acc =>
    if c = '\"' then csvRecords rest (!inQ) (c :: acc)
    else if c = '\n' ∧ inQ = false then acc.reverse :: csvRecords rest inQ []
    else csvRecords rest inQ (c :: acc)

/-- The list of CSV records (rows) parsed from a file's content. -/
def csvRows (content : List Char) : List (List Char) :=
  csvRecords content false []

/-! ## Reference parsing (absolute `gs://` scheme) -/

/-- The scheme prefix of an absolute blob reference, `"gs://"`. -/
def gsPrefix : List Char := ['g', 's', ':', '/', '/']

/-- `gs_path.startswith("gs://")` combined with dropping the prefix:
`some rest` when the reference carries the scheme prefix, `none` otherwise. -/
def stripGs : List Char → Option (List Char)
  | 'g' :: 's' :: ':' :: '/' :: '/' :: rest => some rest
  | _ => none

/-- `rest.split("/", 1)`: the bucket name is everything before the first
separator; the blob name is everything after it, and empty when there is no
separator (Python's `parts[1] if len(parts) > 1 else ""`). -/
def splitBucket : List Char → List Char × List Char
  | [] => ([], [])
  | c :: rest =>
    if c = '/' then ([], rest)
    else (c :: (splitBucket rest).1, (splitBucket rest).2)

/-! ## The row counter -/

/-- `count_csv_rows` from `src/main.py`, instrumented: returns the count
together with the list of fetches attempted against the blob store (each as
a (bucket, blob name) pair).  A reference without the `gs://` prefix, or
one whose blob name is empty after splitting off the bucket, returns 0
without any fetch; a failed fetch, empty content, or content with no parsed
header row returns 0; otherwise the rows after the header are counted. -/
def count_csv_rows_run (store : BlobStore) (gs_path : List Char) :
    Nat × List (List Char × List Char) :=
  match stripGs gs_path with
  | none => (0, [])
  | some rest =>
    let bucket_name := (splitBucket rest).1
    let blob_name := (splitBucket rest).2
    if blob_name = [] then (0, [])
    else
      match store bucket_name blob_name with
      | none => (0, [(bucket_name, blob_name)])
      | some content =>
        if content = [] then (0, [(bucket_name, blob_name)])
        else
          match csvRows content with
          | [] => (0, [(bucket_name, blob_name)])
          | _header :: rows => (rows.length, [(bucket_name, blob_name)])

/-- The row count returned to the caller of `count_csv_rows`. -/
def count_csv_rows (store : BlobStore) (gs_path : List Char) : Nat :=
  (count_csv_rows_run store gs_path).1

/-! ## The document model -/

/-- The `results` value computed by the pass: row counts of the blacklisted
and clean files and their sum. -/
structure Results where
  dnc : Nat
  clean : Nat
  total : Nat
deriving DecidableEq, Repr

/-- A value stored under the `results` key of a document.  The pass only
ever tests the key's presence, so any pre-existing value — including an
empty one — is represented by `preexisting`; values written by the pass are
`computed r`. -/
inductive ResultsVal where
  | computed (r : Results)
  | preexisting
deriving DecidableEq, Repr

/-- The `outputFiles` mapping of a document: its two recognized keys, each
optionally present (`none` also covers a stored `null`). -/
structure OutputFiles where
  blacklistedFilePath : Option (List Char)
  cleanFilePath : Option (List Char)
deriving DecidableEq, Repr

/-- The field mapping of a document, as consumed by the pass: the optional
`results` and `outputFiles` keys, plus every other field (untouched by the
pass, kept to state the frame property of the partial update). -/
structure DocData where
  results : Option ResultsVal
  outputFiles : Option OutputFiles
  otherFields : List (List Char × List Char)
deriving DecidableEq, Repr

/-- A document of the collection: its store-assigned identity, its data, and
a flag modelling whether `doc.reference.update` raises for this document
(transient store error, concurrent deletion). -/
structure Doc where
  id : List Char
  data : DocData
  updateFails : Bool
deriving DecidableEq, Repr

/-- Observable events of one pass: skipping an already-processed document,
one invocation of the row counter on a path, a successful update, a failed
(logged and swallowed) update. -/
inductive Event where
  | skipped (id : List Char)
  | counted (path : List Char)
  | updated (id : List Char) (r : Results)
  | updateFailed (id : List Char) (r : Results)
deriving DecidableEq, Repr

/-- Whether an event is a (successful) update attempt. -/
def Event.isUpdate : Event → Bool
  | Event.updated _ _ => true
  | _ => false

/-- `data.get("outputFiles", \x7b\x7d).get("blacklistedFilePath", "")`: the
blacklisted path, with a missing `outputFiles` mapping or a missing key
degrading to the empty string. -/
def blacklistedPathOf (data : DocData) : List Char :=
  ((data.outputFiles.getD { blacklistedFilePath := none, cleanFilePath := none }).blacklistedFilePath).getD []

/-- `data.get("outputFiles", \x7b\x7d).get("cleanFilePath", "")`: the clean
path, with the same degradation. -/
def cleanPathOf (data : DocData) : List Char :=
  ((data.outputFiles.getD { blacklistedFilePath := none, cleanFilePath := none }).cleanFilePath).getD []

/-- `count_csv_rows(path) if path else 0` for one side of a document: the
count, paired with the row-counter invocation this side performs (none when
the path is missing or empty, exactly one otherwise). -/
def sideRun (store : BlobStore) (path : List Char) : Nat × List Event :=
  if path = [] then (0, [])
  else (count_csv_rows store path, [Event.counted path])

/-- The `results` dictionary built for an unprocessed document:
`dnc` and `clean` from the two sides, `total` their sum. -/
def resultsFor (store : BlobStore) (data : DocData) : Results :=
  { dnc := (sideRun store (blacklistedPathOf data)).1
    clean := (sideRun store (cleanPathOf data)).1
    total := (sideRun store (blacklistedPathOf data)).1 + (sideRun store (cleanPathOf data)).1 }

/-- The row-counter invocations performed for an unprocessed document:
blacklisted side first, then clean side, as in the source. -/
def countEvents (store : BlobStore) (data : DocData) : List Event :=
  (sideRun store (blacklistedPathOf data)).2 ++ (sideRun store (cleanPathOf data)).2

/-- The body of the `for doc in docs` loop of `process_documents`: skip a
document that already has a `results` key; otherwise count both sides,
build `results` and attempt the partial update `\x7b"results": results\x7d`,
which on failure is logged and leaves the document unchanged. -/
def processDoc (store : BlobStore) (doc : Doc) : Doc × List Event :=
  if (doc.data.results).isSome then
    (doc, [Event.skipped doc.id])
  else
    let results := resultsFor store doc.data
    if doc.updateFails then
      (doc, countEvents store doc.data ++ [Event.updateFailed doc.id results])
    else
      ({ doc with data := { doc.data with results := some (ResultsVal.computed results) } },
        countEvents store doc.data ++ [Event.updated doc.id results])

/-- `process_documents`: the sequential pass over the streamed collection,
returning the updated collection and the concatenated event trace. -/
def process_documents (store : BlobStore) (docs : List Doc) : List Doc × List Event :=
  match docs with
  | [] => ([], [])
  | d :: ds =>
    ((processDoc store d).1 :: (process_documents store ds).1,
      (processDoc store d).2 ++ (process_documents store ds).2)

/-! ## The relative addressing scheme (used by C8)

`src/` contains only the absolute `gs://` variant of the row counter; the
spec describes a second, relative variant that is not part of `src/`.  The
two definitions below are therefore modelled from the spec rather than
translated from source code. -/

/-- Modelled from the spec: the path normalization of the relative
addressing scheme, absent from `src/` — "the reference itself, with any
single leading path separator stripped, is the file path within that fixed
container". -/
def stripLeadingSep : List Char → List Char
  | [] => []
  | c :: rest => if c = '/' then rest else c :: rest

/-- Modelled from the spec: the relative-scheme variant of the row counter,
absent from `src/` — the container name comes from a fixed configuration
value (`none` when not configured, in which case every count is 0); the
reference with a single leading separator stripped is the file path; an
empty stripped reference is invalid (0); fetching and header-excluded row
counting then proceed as in the absolute variant. -/
def count_csv_rows_relative (container : Option (List Char)) (store : BlobStore)
    (ref : List Char) : Nat :=
  match container with
  | none => 0
  | some c =>
    let filePath := stripLeadingSep ref
    if filePath = [] then 0
    else
      match store c filePath with
      | none => 0
      | some content =>
        if content = [] then 0
        else
          match csvRows content with
          | [] => 0
          | _header :: rows => rows.length

/-! ## Sample stores and documents (used by the witnesses) -/

/-- A blob store in which every fetch raises. -/
def emptyStore : BlobStore := fun _ _ => none

/-- Sample file content: a header line and three data lines. -/
def sampleContent : List Char := "h1,h2\na,b\nc,d\ne,f".data

/-- Sample file content: a header line and two data lines. -/
def sampleContent2 : List Char := "h1,h2\nu,v\nw,x".data

/-- A blob store holding `sampleContent` at `bkt/x.csv` and `sampleContent2`
at `bkt/y.csv`; every other fetch raises. -/
def sampleStore : BlobStore := fun b f =>
  if b = "bkt".data ∧ f = "x.csv".data then some sampleContent
  else if b = "bkt".data ∧ f = "y.csv".data then some sampleContent2
  else none

/-- A sample document with both file paths present and no `results`. -/
def sampleDoc : Doc :=
  { id := "d1".data
    data :=
      { results := none
        outputFiles := some
          { blacklistedFilePath := some "gs://bkt/x.csv".data
            cleanFilePath := some "gs://bkt/y.csv".data }
        otherFields := [("phone".data, "555".data)] }
    updateFails := false }

/-- A sample already-processed document: it carries a `results` value. -/
def doneDoc : Doc :=
  { id := "d0".data
    data :=
      { results := some ResultsVal.preexisting
        outputFiles := some
          { blacklistedFilePath := some "gs://bkt/x.csv".data
            cleanFilePath := none }
        otherFields := [] }
    updateFails := false }

/-- A sample document with no `results` and no `outputFiles` mapping. -/
def bareDoc : Doc :=
  { id := "d2".data
    data := { results := none, outputFiles := none, otherFields := [] }
    updateFails := false }

/-- `sampleDoc` with its update call made to fail. -/
def failingDoc : Doc :=
  { sampleDoc with id := "d3".data, updateFails := true }

/-! ## Helper lemmas -/

theorem stripGs_eq_some {p r : List Char} (h : stripGs p = some r) :
    p = gsPrefix ++ r := by
  unfold stripGs at h
  split at h
  · simp only [Option.some.injEq] at h
    subst h; rfl
  · exact absurd h (by simp)

theorem stripGs_gsPrefix (r : List Char) : stripGs (gsPrefix ++ r) = some r := rfl

theorem stripGs_eq_none {p : List Char} (h : ∀ rest, p ≠ gsPrefix ++ rest) :
    stripGs p = none := by
  cases hs : stripGs p with
  | none => rfl
  | some r => exact absurd (stripGs_eq_some hs) (h r)

theorem splitBucket_append (bucket blobName : List Char) (h : '/' ∉ bucket) :
    splitBucket (bucket ++ '/' :: blobName) = (bucket, blobName) := by
  induction bucket with
  | nil => simp [splitBucket]
  | cons c cs ih =>
    have hc : c ≠ '/' := fun hc => h (hc ▸ List.mem_cons_self c cs)
    have hcs : '/' ∉ cs := fun hm => h (List.mem_cons_of_mem c hm)
    simp [splitBucket, hc, ih hcs]

theorem csvRows_nil : csvRows [] = [] := rfl

theorem process_documents_fst (store : BlobStore) (docs : List Doc) :
    (process_documents store docs).1 = docs.map (fun d => (processDoc store d).1) := by
  induction docs with
  | nil => rfl
  | cons d ds ih => simp [process_documents, ih]

theorem process_documents_snd (store : BlobStore) (docs : List Doc) :
    (process_documents store docs).2 = (docs.map (fun d => (processDoc store d).2)).flatten := by
  induction docs with
  | nil => rfl
  | cons d ds ih => simp [process_documents, ih]

theorem processDoc_skip (store : BlobStore) (d : Doc)
    (h : (d.data.results).isSome = true) :
    processDoc store d = (d, [Event.skipped d.id]) := by
  simp [processDoc, h]

theorem processDoc_update (store : BlobStore) (d : Doc)
    (h : d.data.results = none) (hf : d.updateFails = false) :
    processDoc store d =
      ({ d with data := { d.data with
          results := some (ResultsVal.computed (resultsFor store d.data)) } },
        countEvents store d.data ++ [Event.updated d.id (resultsFor store d.data)]) := by
  simp [processDoc, h, hf]

theorem processDoc_updateFailed (store : BlobStore) (d : Doc)
    (h : d.data.results = none) (hf : d.updateFails = true) :
    processDoc store d =
      (d, countEvents store d.data ++ [Event.updateFailed d.id (resultsFor store d.data)]) := by
  simp [processDoc, h, hf]

theorem resultsFor_total (store : BlobStore) (data : DocData) :
    (resultsFor store data).total = (resultsFor store data).dnc + (resultsFor store data).clean := rfl

theorem updated_mem_processDoc {store : BlobStore} {d : Doc} {id : List Char} {r : Results}
    (h : Event.updated id r ∈ (processDoc store d).2) :
    r = resultsFor store d.data := by
  by_cases hs : (d.data.results).isSome = true
  · rw [processDoc_skip store d hs] at h
    simp at h
  · have hn : d.data.results = none := by
      cases hres : d.data.results with
      | none => rfl
      | some v => rw [hres] at hs; simp at hs
    by_cases hf : d.updateFails = true
    · rw [processDoc_updateFailed store d hn hf] at h
      simp only [List.mem_append, List.mem_singleton] at h
      rcases h with h | h
      · simp only [countEvents, sideRun, List.mem_append] at h
        rcases h with h | h <;> split at h <;> simp_all
      · exact absurd h (by simp)
    · have hf' : d.updateFails = false := by simpa using hf
      rw [processDoc_update store d hn hf'] at h
      simp only [List.mem_append, List.mem_singleton] at h
      rcases h with h | h
      · simp only [countEvents, sideRun, List.mem_append] at h
        rcases h with h | h <;> split at h <;> simp_all
      · simp only [Event.updated.injEq] at h
        exact h.2

theorem processDoc_fst_of_fail (store : BlobStore) (d : Doc) (hf : d.updateFails = true) :
    (processDoc store d).1 = d := by
  by_cases hs : (d.data.results).isSome = true
  · rw [processDoc_skip store d hs]
  · have hn : d.data.results = none := Option.not_isSome_iff_eq_none.mp (by simpa using hs)
    rw [processDoc_updateFailed store d hn hf]

theorem process_documents_getElem (store : BlobStore) (docs : List Doc) (j : Nat)
    (hj : j < docs.length) (hj2 : j < (process_documents store docs).1.length) :
    (process_documents store docs).1[j] = (processDoc store docs[j]).1 := by
  induction docs generalizing j with
  | nil => cases hj
  | cons d ds ih =>
    cases j with
    | zero => rfl
    | succ k =>
      have hk : k < ds.length := by simpa using hj
      have hk2 : k < (process_documents store ds).1.length := by
        rw [process_documents_fst]
        simpa using hk
      simpa [process_documents] using ih k hk hk2

/-! ## The claims -/

/-- C1: a record whose data already contains a `results` attribute is
skipped: no document update is performed for it and the row counter is
invoked zero times for it; re-running the pass on a store where every
record already has `results` produces zero writes and zero row-counter
invocations (the whole trace is skip events and the collection is
unchanged). -/
theorem c1_skip_idempotence (store : BlobStore) (docs : List Doc)
    (h : ∀ d ∈ docs, (d.data.results).isSome = true) :
    (∀ d : Doc, (d.data.results).isSome = true →
      processDoc store d = (d, [Event.skipped d.id])) ∧
    process_documents store docs = (docs, docs.map (fun d => Event.skipped d.id)) := by
  refine ⟨fun d hd => processDoc_skip store d hd, ?_⟩
  induction docs with
  | nil => rfl
  | cons d ds ih =>
    have hd := h d (List.mem_cons_self d ds)
    have hds : ∀ x ∈ ds, (x.data.results).isSome = true :=
      fun x hx => h x (List.mem_cons_of_mem d hx)
    simp [process_documents, processDoc_skip store d hd, ih hds]

theorem c1_skip_idempotence_witness :
    process_documents sampleStore [doneDoc] = ([doneDoc], [Event.skipped doneDoc.id]) :=
  (c1_skip_idempotence sampleStore [doneDoc] (by
    intro d hd
    rw [List.mem_singleton] at hd
    subst hd
    rfl)).2

/-- C3: the row counter totals are natural numbers (hence non-negative) and
every failure mode — a reference without the scheme prefix, a missing blob
name, a fetch that raises, or empty fetched content — degrades to a return
value of 0 rather than an error. -/
theorem c3_degrade_to_zero (store : BlobStore) (gs_path : List Char) :
    0 ≤ count_csv_rows store gs_path ∧
    (stripGs gs_path = none → count_csv_rows store gs_path = 0) ∧
    (∀ rest, stripGs gs_path = some rest → (splitBucket rest).2 = [] →
      count_csv_rows store gs_path = 0) ∧
    (∀ rest, stripGs gs_path = some rest →
      store (splitBucket rest).1 (splitBucket rest).2 = none →
      count_csv_rows store gs_path = 0) ∧
    (∀ rest, stripGs gs_path = some rest →
      store (splitBucket rest).1 (splitBucket rest).2 = some [] →
      count_csv_rows store gs_path = 0) := by
  refine ⟨Nat.zero_le _, ?_, ?_, ?_, ?_⟩
  · intro h
    simp [count_csv_rows, count_csv_rows_run, h]
  · intro rest h hb
    simp [count_csv_rows, count_csv_rows_run, h, hb]
  · intro rest h hs
    by_cases hb : (splitBucket rest).2 = []
    · simp [count_csv_rows, count_csv_rows_run, h, hb]
    · simp [count_csv_rows, count_csv_rows_run, h, hb, hs]
  · intro rest h hs
    by_cases hb : (splitBucket rest).2 = []
    · simp [count_csv_rows, count_csv_rows_run, h, hb]
    · simp [count_csv_rows, count_csv_rows_run, h, hb, hs, csvRows, csvRecords]

theorem c3_degrade_to_zero_witness :
    count_csv_rows emptyStore ['x'] = 0 ∧
    count_csv_rows emptyStore "gs://bkt".data = 0 ∧
    count_csv_rows emptyStore "gs://bkt/x.csv".data = 0 :=
  ⟨(c3_degrade_to_zero emptyStore ['x']).2.1 rfl,
    (c3_degrade_to_zero emptyStore "gs://bkt".data).2.2.1 "bkt".data rfl (by decide),
    (c3_degrade_to_zero emptyStore "gs://bkt/x.csv".data).2.2.2.1 "bkt/x.csv".data rfl rfl⟩

/-- C7: a malformed reference under the absolute scheme — one lacking the
`gs://` prefix, or one whose parsed blob name after the bucket segment is
empty — makes the row counter return 0 immediately, with no fetch attempted
against the blob store. -/
theorem c7_malformed (store : BlobStore) (gs_path : List Char) :
    ((∀ rest, gs_path ≠ gsPrefix ++ rest) → count_csv_rows_run store gs_path = (0, [])) ∧
    (∀ rest, gs_path = gsPrefix ++ rest → (splitBucket rest).2 = [] →
      count_csv_rows_run store gs_path = (0, [])) := by
  constructor
  · intro h
    simp [count_csv_rows_run, stripGs_eq_none h]
  · intro rest h hb
    subst h
    simp [count_csv_rows_run, stripGs_gsPrefix, hb]

theorem c7_malformed_witness :
    count_csv_rows_run emptyStore "http://b/x.csv".data = (0, []) ∧
    count_csv_rows_run emptyStore "gs://bucketonly".data = (0, []) :=
  ⟨(c7_malformed emptyStore "http://b/x.csv".data).1 (by
      intro rest h
      have hg : 'h' = 'g' := by injection h
      exact absurd hg (by decide)),
    (c7_malformed emptyStore "gs://bucketonly".data).2 "bucketonly".data rfl (by decide)⟩

/-- C2: for a well-formed reference (`gs://` prefix, a bucket without a
separator, a non-empty blob name) whose fetch succeeds, the count is the
number of parsed CSV rows after the header — so header + N data rows yields
N, a header-only file yields 0 (the `dataRows = []` instance), and empty
content yields 0. -/
theorem c2_header_exclusion (store : BlobStore) (bucket blobName content : List Char)
    (hb : '/' ∉ bucket) (hn : blobName ≠ [])
    (hf : store bucket blobName = some content) :
    (∀ header dataRows, csvRows content = header :: dataRows →
      count_csv_rows store (gsPrefix ++ bucket ++ '/' :: blobName) = dataRows.length) ∧
    (content = [] → count_csv_rows store (gsPrefix ++ bucket ++ '/' :: blobName) = 0) := by
  have hs : splitBucket (bucket ++ '/' :: blobName) = (bucket, blobName) :=
    splitBucket_append bucket blobName hb
  constructor
  · intro header dataRows hrows
    have hcne : content ≠ [] := by
      intro hc
      rw [hc, csvRows_nil] at hrows
      cases hrows
    simp [count_csv_rows, count_csv_rows_run, stripGs_gsPrefix, hs, hn, hf, hcne, hrows]
  · intro hc
    subst hc
    simp [count_csv_rows, count_csv_rows_run, stripGs_gsPrefix, hs, hn, hf]

theorem c2_header_exclusion_witness :
    count_csv_rows sampleStore (gsPrefix ++ "bkt".data ++ '/' :: "x.csv".data) = 3 :=
  (c2_header_exclusion sampleStore "bkt".data "x.csv".data sampleContent
      (by decide) (by decide) rfl).1
    "h1,h2".data ["a,b".data, "c,d".data, "e,f".data] (by decide)

/-- C4: every `results` value a pass writes satisfies `total = dnc + clean`
as exact natural-number arithmetic, and for an updated record `dnc` and
`clean` are precisely the counts obtained for the blacklisted and clean
paths (0 for a missing or empty path, the row counter's value otherwise). -/
theorem c4_total_exact (store : BlobStore) (docs : List Doc) :
    (∀ id r, Event.updated id r ∈ (process_documents store docs).2 →
      r.total = r.dnc + r.clean) ∧
    (∀ d : Doc, d.data.results = none → d.updateFails = false →
      (processDoc store d).1.data.results = some (ResultsVal.computed
        { dnc := if blacklistedPathOf d.data = [] then 0
            else count_csv_rows store (blacklistedPathOf d.data)
          clean := if cleanPathOf d.data = [] then 0
            else count_csv_rows store (cleanPathOf d.data)
          total := (if blacklistedPathOf d.data = [] then 0
              else count_csv_rows store (blacklistedPathOf d.data)) +
            (if cleanPathOf d.data = [] then 0
              else count_csv_rows store (cleanPathOf d.data)) })) := by
  constructor
  · intro id r hmem
    rw [process_documents_snd] at hmem
    rw [List.mem_flatten] at hmem
    obtain ⟨l, hl, hrl⟩ := hmem
    rw [List.mem_map] at hl
    obtain ⟨d, _, rfl⟩ := hl
    rw [updated_mem_processDoc hrl]
    exact resultsFor_total store d.data
  · intro d h hf
    rw [processDoc_update store d h hf]
    by_cases hbp : blacklistedPathOf d.data = [] <;>
      by_cases hcp : cleanPathOf d.data = [] <;>
        simp [resultsFor, sideRun, hbp, hcp]

theorem c4_total_exact_witness :
    (processDoc sampleStore sampleDoc).1.data.results =
      some (ResultsVal.computed { dnc := 3, clean := 2, total := 5 }) := by
  have h := (c4_total_exact sampleStore [sampleDoc]).2 sampleDoc rfl rfl
  rw [h]
  decide

/-- C5: if one record's update call fails, the pass still visits every
record (the output collection has the same length), every other unprocessed
record is updated with its correct `results`, and the failing record is
left unchanged — in particular still without `results`, hence eligible for
a future pass. -/
theorem c5_partial_failure (store : BlobStore) (docs : List Doc) (i : Nat)
    (hothers : ∀ j (hj : j < docs.length), j ≠ i → docs[j].updateFails = false) :
    (process_documents store docs).1.length = docs.length ∧
    (∀ j (hj : j < docs.length) (hj2 : j < (process_documents store docs).1.length),
      j ≠ i → docs[j].data.results = none →
      (process_documents store docs).1[j] =
        { docs[j] with data := { docs[j].data with
            results := some (ResultsVal.computed (resultsFor store docs[j].data)) } }) ∧
    (∀ (hi : i < docs.length) (hi2 : i < (process_documents store docs).1.length),
      docs[i].updateFails = true →
      (process_documents store docs).1[i] = docs[i]) := by
  refine ⟨?_, ?_, ?_⟩
  · rw [process_documents_fst]
    exact List.length_map docs _
  · intro j hj hj2 hne hres
    rw [process_documents_getElem store docs j hj hj2]
    rw [processDoc_update store docs[j] hres (hothers j hj hne)]
  · intro hi hi2 hfail
    rw [process_documents_getElem store docs i hi hi2]
    exact processDoc_fst_of_fail store docs[i] hfail

theorem c5_partial_failure_witness :
    (process_documents sampleStore [failingDoc, sampleDoc]).1.length = 2 ∧
    (process_documents sampleStore [failingDoc, sampleDoc]).1.get ⟨1, by decide⟩ =
      { sampleDoc with data := { sampleDoc.data with
          results := some (ResultsVal.computed (resultsFor sampleStore sampleDoc.data)) } } ∧
    (process_documents sampleStore [failingDoc, sampleDoc]).1.get ⟨0, by decide⟩ = failingDoc := by
  have h := c5_partial_failure sampleStore [failingDoc, sampleDoc] 0 (by
    intro j hj hne
    cases j with
    | zero => exact absurd rfl hne
    | succ k =>
      cases k with
      | zero => rfl
      | succ m =>
        have hm : m + 1 + 1 < 2 := hj
        exact absurd hm (by omega))
  exact ⟨h.1, h.2.1 1 (by decide) (by decide) (by decide) rfl, h.2.2 (by decide) (by decide) rfl⟩

/-- C6: for an unprocessed record, a missing or empty blacklisted
(respectively clean) path contributes no row-counter invocation and a count
of 0 for that side, while a non-empty path contributes exactly one
invocation for that side, whose value becomes that side's count; the full
event trace of the record is exactly those invocations followed by the one
update attempt. -/
theorem c6_side_shortcircuit (store : BlobStore) (d : Doc) (h : d.data.results = none) :
    (processDoc store d).2 =
      (if blacklistedPathOf d.data = [] then []
        else [Event.counted (blacklistedPathOf d.data)]) ++
      (if cleanPathOf d.data = [] then []
        else [Event.counted (cleanPathOf d.data)]) ++
      [if d.updateFails then Event.updateFailed d.id (resultsFor store d.data)
        else Event.updated d.id (resultsFor store d.data)] ∧
    (blacklistedPathOf d.data = [] → (resultsFor store d.data).dnc = 0) ∧
    (cleanPathOf d.data = [] → (resultsFor store d.data).clean = 0) ∧
    (blacklistedPathOf d.data ≠ [] →
      (resultsFor store d.data).dnc = count_csv_rows store (blacklistedPathOf d.data)) ∧
    (cleanPathOf d.data ≠ [] →
      (resultsFor store d.data).clean = count_csv_rows store (cleanPathOf d.data)) := by
  refine ⟨?_, ?_, ?_, ?_, ?_⟩
  · by_cases hf : d.updateFails = true
    · rw [processDoc_updateFailed store d h hf]
      by_cases hbp : blacklistedPathOf d.data = [] <;>
        by_cases hcp : cleanPathOf d.data = [] <;>
          simp [countEvents, sideRun, hf, hbp, hcp]
    · have hf' : d.updateFails = false := by simpa using hf
      rw [processDoc_update store d h hf']
      by_cases hbp : blacklistedPathOf d.data = [] <;>
        by_cases hcp : cleanPathOf d.data = [] <;>
          simp [countEvents, sideRun, hf', hbp, hcp]
  · intro hbp
    simp [resultsFor, sideRun, hbp]
  · intro hcp
    simp [resultsFor, sideRun, hcp]
  · intro hbp
    simp [resultsFor, sideRun, hbp]
  · intro hcp
    simp [resultsFor, sideRun, hcp]

theorem c6_side_shortcircuit_witness :
    (processDoc sampleStore sampleDoc).2 =
      [Event.counted "gs://bkt/x.csv".data, Event.counted "gs://bkt/y.csv".data,
        Event.updated sampleDoc.id { dnc := 3, clean := 2, total := 5 }] := by
  have h := (c6_side_shortcircuit sampleStore sampleDoc rfl).1
  rw [h]
  decide

/-- C9: when the pass persists a record's results, it performs exactly one
update attempt in that record's trace, and only the `results` field of the
record changes — its identity, its `outputFiles`, every other field, and
the failure flag are untouched, while `results` receives the computed
value. -/
theorem c9_frame (store : BlobStore) (d : Doc)
    (h : d.data.results = none) (hf : d.updateFails = false) :
    (processDoc store d).1.id = d.id ∧
    (processDoc store d).1.data.outputFiles = d.data.outputFiles ∧
    (processDoc store d).1.data.otherFields = d.data.otherFields ∧
    (processDoc store d).1.updateFails = d.updateFails ∧
    (processDoc store d).1.data.results =
      some (ResultsVal.computed (resultsFor store d.data)) ∧
    ((processDoc store d).2.filter Event.isUpdate).length = 1 := by
  rw [processDoc_update store d h hf]
  refine ⟨rfl, rfl, rfl, rfl, rfl, ?_⟩
  by_cases hbp : blacklistedPathOf d.data = [] <;>
    by_cases hcp : cleanPathOf d.data = [] <;>
      simp [countEvents, sideRun, hbp, hcp, Event.isUpdate, List.filter]

theorem c9_frame_witness :
    (processDoc sampleStore sampleDoc).1.data.otherFields = [("phone".data, "555".data)] ∧
    ((processDoc sampleStore sampleDoc).2.filter Event.isUpdate).length = 1 :=
  ⟨(c9_frame sampleStore sampleDoc rfl rfl).2.2.1,
    (c9_frame sampleStore sampleDoc rfl rfl).2.2.2.2.2⟩

/-- C10: a record with no `results` attribute and no `outputFiles` mapping
at all is not skipped and does not fail: both paths degrade to the empty
string, so the pass writes `results = \x7bdnc := 0, clean := 0, total := 0\x7d`
for it (here stated for a record whose update call succeeds), with no
row-counter invocation. -/
theorem c10_missing_outputFiles (store : BlobStore) (d : Doc)
    (h : d.data.results = none) (ho : d.data.outputFiles = none)
    (hf : d.updateFails = false) :
    (processDoc store d).1.data.results =
      some (ResultsVal.computed { dnc := 0, clean := 0, total := 0 }) ∧
    (processDoc store d).2 = [Event.updated d.id { dnc := 0, clean := 0, total := 0 }] := by
  rw [processDoc_update store d h hf]
  have hbp : blacklistedPathOf d.data = [] := by simp [blacklistedPathOf, ho]
  have hcp : cleanPathOf d.data = [] := by simp [cleanPathOf, ho]
  constructor
  · simp [resultsFor, sideRun, hbp, hcp]
  · simp [countEvents, resultsFor, sideRun, hbp, hcp]

theorem c10_missing_outputFiles_witness :
    (processDoc sampleStore bareDoc).1.data.results =
      some (ResultsVal.computed { dnc := 0, clean := 0, total := 0 }) ∧
    (processDoc sampleStore bareDoc).2 =
      [Event.updated bareDoc.id { dnc := 0, clean := 0, total := 0 }] :=
  c10_missing_outputFiles sampleStore bareDoc rfl rfl rfl

/-- C8: under the relative scheme, a reference with a single leading path
separator and the same reference without it resolve to the identical file
path, and the row counter returns the same count for both. -/
theorem c8_leading_sep (container : Option (List Char)) (store : BlobStore)
    (p : List Char) (h : ∀ q, p ≠ '/' :: q) :
    stripLeadingSep ('/' :: p) = p ∧ stripLeadingSep p = p ∧
    count_csv_rows_relative container store ('/' :: p) =
      count_csv_rows_relative container store p := by
  have h1 : stripLeadingSep ('/' :: p) = p := by simp [stripLeadingSep]
  have h2 : stripLeadingSep p = p := by
    cases p with
    | nil => rfl
    | cons c rest =>
      have hc : c ≠ '/' := fun hc => h rest (by rw [hc])
      simp [stripLeadingSep, hc]
  refine ⟨h1, h2, ?_⟩
  cases container with
  | none => rfl
  | some c => simp [count_csv_rows_relative, h1, h2]

theorem c8_leading_sep_witness :
    stripLeadingSep "/a/b.csv".data = "a/b.csv".data ∧
    count_csv_rows_relative (some "bkt".data) emptyStore "/a/b.csv".data =
      count_csv_rows_relative (some "bkt".data) emptyStore "a/b.csv".data := by
  have h := c8_leading_sep (some "bkt".data) emptyStore "a/b.csv".data (by
    intro q hq
    have ha : 'a' = '/' := by injection hq
    exact absurd ha (by decide))
  exact ⟨h.1, h.2.2⟩

end CfSync
